import Mathlib

/-!
Verification of the laundry order lifecycle, pricing and payment logic of the
communityexpress-api backend (FastAPI route handlers in app/routers/laundry.py
and app/routers/payments.py), via a shallow embedding.

Modelling conventions:
* Python `Decimal` values are embedded as `Rat`: all Decimal additions and
  multiplications performed by the handlers are exact, so rational arithmetic
  is a faithful model of the computed monetary values.
* The Supabase data store is passed explicitly: table reads become `List`
  lookups (`find?` models `.select(...).eq(...)` returning the first row) and
  writes become returned updated records.
* `HTTPException` outcomes are embedded as `Except HttpError`.
* Timestamps (`datetime.now()`) are an explicit `now : Nat` parameter;
  ISO date strings are kept as `String` (`.isoformat()` is the identity here).
* Pydantic optional fields use `Option`; `dict(exclude_unset=True)` semantics
  are modelled by `none` = field not supplied.
-/

namespace CommunityExpress

/-- Exact decimal money values (Python `Decimal`), embedded as rationals. -/
abbrev Money := Rat

/-- HTTP error outcomes raised by the handlers (`HTTPException`). -/
inductive HttpError where
  | unauthorized (detail : String)
  | forbidden (detail : String)
  | notFound (detail : String)
  | badRequest (detail : String)
  deriving Repr, DecidableEq

/-- The parts of the authenticated identity the handlers inspect
(`current_user.id`, `current_user.role`). -/
structure UserCtx where
  id : String
  role : String
  deriving Repr, DecidableEq

/-- The `UserResponse` fields materialised by the testing bypass in
`get_current_user_or_testing` (app/routers/laundry.py lines 20-49). -/
structure UserResponse where
  id : String
  email : String
  first_name : String
  last_name : String
  role : String
  community_id : Option String
  is_active : Bool
  deriving Repr, DecidableEq

/-- The fixed mock identity returned by the localhost testing bypass. -/
def testingUser : UserResponse :=
  { id := "test-user-id"
    email := "test@testing.com"
    first_name := "Test"
    last_name := "User"
    role := "master"
    community_id := some "test-community-id"
    is_active := true }

/-- Embeds `get_current_user_or_testing` (app/routers/laundry.py lines 20-49):
`host` is `request.client.host` (empty string when `request.client` is absent),
`x_testing` the optional `X-Testing` header.  Localhost callers sending
`X-Testing: true` receive the fixed mock master user; everyone else gets 401. -/
def get_current_user_or_testing (host : String) (x_testing : Option String) :
    Except HttpError UserResponse :=
  if (host = "127.0.0.1" ∨ host = "localhost" ∨ host = "::1") ∧ x_testing = some "true" then
    .ok testingUser
  else
    .error (.unauthorized "Not authenticated")

/-- A `laundry_items` catalog row, restricted to the columns read by
`create_laundry_order` (the handler looks rows up by `id` and uses
`price_per_piece`; the remaining columns are never inspected). -/
structure LaundryItemRow where
  id : String
  price_per_piece : Money
  deriving Repr, DecidableEq

/-- A `laundry_vendors` row, restricted to the columns read by
`create_laundry_order` (`.select("pickup_charge, delivery_charge")`). -/
structure LaundryVendorRow where
  id : String
  pickup_charge : Money
  delivery_charge : Money
  deriving Repr, DecidableEq

/-- Pydantic `LaundryOrderItemCreate` (app/models/laundry.py lines 79-82).
`quantity` is declared `Field(..., gt=0)` there; the bound is not needed by
the theorems below, so it is not baked into the type. -/
structure LaundryOrderItemCreate where
  laundry_item_id : String
  quantity : Nat
  special_instructions : Option String
  deriving Repr, DecidableEq

/-- Pydantic `LaundryOrderCreate` (app/models/laundry.py lines 84-92).
The `items` list carries no non-emptiness constraint in the source model. -/
structure LaundryOrderCreate where
  laundry_vendor_id : String
  pickup_address : String
  pickup_date : String
  pickup_time_slot : String
  pickup_instructions : Option String
  delivery_address : Option String
  delivery_instructions : Option String
  items : List LaundryOrderItemCreate
  deriving Repr, DecidableEq

/-- A stored `laundry_order_items` row as built by `create_laundry_order`. -/
structure LaundryOrderItemRow where
  laundry_item_id : String
  quantity : Nat
  unit_price : Money
  total_price : Money
  special_instructions : Option String
  deriving Repr, DecidableEq

/-- A stored `laundry_orders` row together with its item rows.  `status` and
`payment_status` default to "pending" and the transition timestamps to NULL:
the insert in `create_laundry_order` supplies none of them, so the database
column defaults apply (the spec records that fresh orders are pending). -/
structure LaundryOrder where
  user_id : String
  laundry_vendor_id : String
  order_number : String
  pickup_address : String
  pickup_date : String
  pickup_time_slot : String
  pickup_instructions : Option String
  delivery_address : String
  estimated_delivery_date : Option String
  estimated_delivery_time : Option String
  delivery_instructions : Option String
  status : String
  subtotal : Money
  pickup_charge : Money
  delivery_charge : Money
  tax_amount : Money
  total_amount : Money
  payment_status : String
  payment_method : Option String
  payment_reference : Option String
  confirmed_at : Option Nat
  picked_up_at : Option Nat
  ready_at : Option Nat
  delivered_at : Option Nat
  cancelled_at : Option Nat
  items : List LaundryOrderItemRow
  deriving Repr, DecidableEq, Inhabited

/-- The item-pricing loop of `create_laundry_order` (app/routers/laundry.py
lines 400-420): each requested item is looked up in `laundry_items` (a 400 error
if absent), its catalog price becomes the frozen `unit_price`,
`total_price = unit_price * quantity`, and the line totals accumulate into the
subtotal.  Decimal addition is exact, so the regrouping of the running sum
into a right fold preserves the computed value. -/
def price_order_items (laundry_items : List LaundryItemRow) :
    List LaundryOrderItemCreate → Except HttpError (Money × List LaundryOrderItemRow)
  | [] => .ok (0, [])
  | item :: rest =>
    match laundry_items.find? (fun r => r.id == item.laundry_item_id) with
    | none => .error (.badRequest ("Item " ++ item.laundry_item_id ++ " not found"))
    | some item_detail =>
      let unit_price := item_detail.price_per_piece
      let total_price := unit_price * (item.quantity : Money)
      match price_order_items laundry_items rest with
      | .error e => .error e
      | .ok (subtotal_rest, rows) =>
        .ok (total_price + subtotal_rest,
          { laundry_item_id := item.laundry_item_id
            quantity := item.quantity
            unit_price := unit_price
            total_price := total_price
            special_instructions := item.special_instructions } :: rows)

/-- Embeds `create_laundry_order` (app/routers/laundry.py lines 377-478): role gate,
item pricing, vendor surcharge lookup, `tax_amount = (subtotal + pickup_charge
+ delivery_charge) * Decimal(0.18)` with no rounding, and
`total_amount = subtotal + pickup_charge + delivery_charge + tax_amount`.
The Python expression `delivery_address or pickup_address` treats both `None`
and the empty string as absent. -/
def create_laundry_order (laundry_items : List LaundryItemRow)
    (laundry_vendors : List LaundryVendorRow)
    (current_user : UserCtx) (order_data : LaundryOrderCreate)
    (order_number : String) : Except HttpError LaundryOrder :=
  if current_user.role ≠ "user" then
    .error (.forbidden "Only users can create laundry orders")
  else
    match price_order_items laundry_items order_data.items with
    | .error e => .error e
    | .ok (subtotal, items_data) =>
      match laundry_vendors.find? (fun v => v.id == order_data.laundry_vendor_id) with
      | none => .error (.badRequest "Laundry vendor not found")
      | some vendor =>
        let pickup_charge := vendor.pickup_charge
        let delivery_charge := vendor.delivery_charge
        let tax_amount := (subtotal + pickup_charge + delivery_charge) * (18 / 100 : Money)
        let total_amount := subtotal + pickup_charge + delivery_charge + tax_amount
        .ok
          { user_id := current_user.id
            laundry_vendor_id := order_data.laundry_vendor_id
            order_number := order_number
            pickup_address := order_data.pickup_address
            pickup_date := order_data.pickup_date
            pickup_time_slot := order_data.pickup_time_slot
            pickup_instructions := order_data.pickup_instructions
            delivery_address :=
              match order_data.delivery_address with
              | some s => if s = "" then order_data.pickup_address else s
              | none => order_data.pickup_address
            estimated_delivery_date := none
            estimated_delivery_time := none
            delivery_instructions := order_data.delivery_instructions
            status := "pending"
            subtotal := subtotal
            pickup_charge := pickup_charge
            delivery_charge := delivery_charge
            tax_amount := tax_amount
            total_amount := total_amount
            payment_status := "pending"
            payment_method := none
            payment_reference := none
            confirmed_at := none
            picked_up_at := none
            ready_at := none
            delivered_at := none
            cancelled_at := none
            items := items_data }

/-- Pydantic `LaundryOrderUpdate` (app/models/laundry.py lines 94-103): all
fields optional; `none` models a field left unset (`dict(exclude_unset=True)`).
Date fields are carried as ISO strings (`.isoformat()` is the identity here). -/
structure LaundryOrderUpdate where
  status : Option String := none
  pickup_address : Option String := none
  pickup_date : Option String := none
  pickup_time_slot : Option String := none
  pickup_instructions : Option String := none
  delivery_address : Option String := none
  estimated_delivery_date : Option String := none
  estimated_delivery_time : Option String := none
  delivery_instructions : Option String := none
  deriving Repr, DecidableEq

/-- The field-copy loop of `update_laundry_order` (app/routers/laundry.py
lines 647-652): every supplied field overwrites the stored column. -/
def apply_update (order : LaundryOrder) (order_data : LaundryOrderUpdate) : LaundryOrder :=
  { order with
    status := order_data.status.getD order.status
    pickup_address := order_data.pickup_address.getD order.pickup_address
    pickup_date := order_data.pickup_date.getD order.pickup_date
    pickup_time_slot := order_data.pickup_time_slot.getD order.pickup_time_slot
    pickup_instructions :=
      match order_data.pickup_instructions with
      | some v => some v
      | none => order.pickup_instructions
    delivery_address := order_data.delivery_address.getD order.delivery_address
    estimated_delivery_date :=
      match order_data.estimated_delivery_date with
      | some v => some v
      | none => order.estimated_delivery_date
    estimated_delivery_time :=
      match order_data.estimated_delivery_time with
      | some v => some v
      | none => order.estimated_delivery_time
    delivery_instructions :=
      match order_data.delivery_instructions with
      | some v => some v
      | none => order.delivery_instructions }

/-- The timestamp-stamping block of `update_laundry_order` (app/routers/
laundry.py lines 654-666): when a status is supplied, the timestamp column
matching the target status is set to `now`; nothing else is stamped and no
timestamp is ever cleared. -/
def stamp_status_timestamp (order : LaundryOrder) (new_status : Option String)
    (now : Nat) : LaundryOrder :=
  match new_status with
  | none => order
  | some s =>
    if s = "confirmed" then { order with confirmed_at := some now }
    else if s = "picked_up" then { order with picked_up_at := some now }
    else if s = "ready" then { order with ready_at := some now }
    else if s = "delivered" then { order with delivered_at := some now }
    else if s = "cancelled" then { order with cancelled_at := some now }
    else order

/-- Embeds `update_laundry_order` (app/routers/laundry.py lines 620-684), given the
fetched current order row.  The only permission check is that a "user"-role
actor must own the order; there is no transition-legality validation of any
kind: whatever status is supplied is written, with its timestamp stamped. -/
def update_laundry_order (current_order : LaundryOrder) (current_user : UserCtx)
    (order_data : LaundryOrderUpdate) (now : Nat) : Except HttpError LaundryOrder :=
  if current_user.role = "user" ∧ current_order.user_id ≠ current_user.id then
    .error (.forbidden "Access denied")
  else
    .ok (stamp_status_timestamp (apply_update current_order order_data) order_data.status now)

/-- Embeds `process_laundry_payment` (app/routers/laundry.py lines 688-739), given
the fetched order row: after the ownership check for "user"-role actors, the
dummy gateway marks the order's `payment_status` "paid" and records method and
reference; the order's `status` column is never touched here. -/
def process_laundry_payment (order : LaundryOrder) (current_user : UserCtx)
    (payment_method : String) (payment_reference : String) :
    Except HttpError LaundryOrder :=
  if current_user.role = "user" ∧ order.user_id ≠ current_user.id then
    .error (.forbidden "Access denied")
  else
    .ok { order with
          payment_status := "paid"
          payment_method := some payment_method
          payment_reference := some payment_reference }

/-- A generic `orders` table row, restricted to the columns the payment
handlers read or write, plus the `cancelled_at` terminal timestamp of the
spec's data model (the refund handler's update dict contains only the
`status` key, so the model shows it untouched). -/
structure OrderRow where
  id : String
  user_id : String
  status : String
  total_amount : Money
  cancelled_at : Option Nat
  deriving Repr, DecidableEq

/-- A `payments` table row as used by app/routers/payments.py. -/
structure PaymentRow where
  order_id : String
  user_id : String
  amount : Money
  payment_method : String
  status : String
  transaction_id : String
  deriving Repr, DecidableEq

/-- Embeds `create_payment` (app/routers/payments.py lines 10-79), given the fetched
order (`none` models an absent row).  On success it returns the inserted
payment row (status "pending"), the row after the simulated gateway update
(status "paid"), and the order row after the handler's unconditional
`status = "confirmed"` update. -/
def create_payment (order : Option OrderRow) (current_user : UserCtx)
    (amount : Money) (payment_method : Option String) (transaction_id : String) :
    Except HttpError (PaymentRow × PaymentRow × OrderRow) :=
  match order with
  | none => .error (.notFound "Order not found")
  | some order =>
    if order.user_id ≠ current_user.id then
      .error (.forbidden "Not authorized to create payment for this order")
    else
      let inserted : PaymentRow :=
        { order_id := order.id
          user_id := current_user.id
          amount := amount
          payment_method := payment_method.getD "mock_payment"
          status := "pending"
          transaction_id := transaction_id }
      .ok (inserted, { inserted with status := "paid" }, { order with status := "confirmed" })

/-- Embeds `refund_payment` (app/routers/payments.py lines 145-184), given the
fetched payment row and the related order row (the row whose id is the
payment's `order_id`).  Refunds are only accepted for "paid" payments; on
success the payment becomes "refunded" and the order update dict is exactly
`status = "cancelled"` — no `cancelled_at` stamp. -/
def refund_payment (payment : PaymentRow) (order : OrderRow) :
    Except HttpError (PaymentRow × OrderRow) :=
  if payment.status ≠ "paid" then
    .error (.badRequest "Can only refund paid payments")
  else
    .ok ({ payment with status := "refunded" }, { order with status := "cancelled" })

/-- A calendar date (`datetime.date`), as compared by the dashboard code. -/
structure CalDate where
  year : Nat
  month : Nat
  day : Nat
  deriving Repr, DecidableEq

/-- Python `date` ordering: lexicographic on (year, month, day). -/
def CalDate.le (a b : CalDate) : Prop :=
  a.year < b.year ∨ (a.year = b.year ∧
    (a.month < b.month ∨ (a.month = b.month ∧ a.day ≤ b.day)))

instance (a b : CalDate) : Decidable (CalDate.le a b) := by
  unfold CalDate.le
  infer_instance

/-- The projection of a `laundry_orders` row selected by the dashboard query
(`.select("status, total_amount, created_at")`), with `created_at` reduced to
its calendar date (`datetime.fromisoformat(...).date()`). -/
structure DashOrder where
  status : String
  total_amount : Money
  created_date : CalDate
  deriving Repr, DecidableEq

/-- Embeds `today.replace(day=1)`: first day of the current calendar month. -/
def month_start (today : CalDate) : CalDate := { today with day := 1 }

/-- The `today_revenue` aggregation of `get_vendor_dashboard`
(app/routers/laundry.py lines 774-778): sum of `total_amount` over the fetched
orders whose status is "delivered" and whose creation date equals today. -/
def today_revenue (orders : List DashOrder) (today : CalDate) : Money :=
  ((orders.filter fun o => o.status = "delivered" ∧ o.created_date = today).map
    fun o => o.total_amount).sum

/-- The `monthly_revenue` aggregation of `get_vendor_dashboard`
(app/routers/laundry.py lines 780-784): sum of `total_amount` over the fetched
orders whose status is "delivered" and whose creation date is on or after the
first of the current month. -/
def monthly_revenue (orders : List DashOrder) (today : CalDate) : Money :=
  ((orders.filter fun o =>
      o.status = "delivered" ∧ CalDate.le (month_start today) o.created_date).map
    fun o => o.total_amount).sum

/-- Worded from the spec, for comparison with the code's aggregations: the
revenue of a window is the sum of `total_amount` over exactly the orders whose
status is "delivered" and whose creation date falls in the window. -/
def revenue_in_window (orders : List DashOrder) (window : CalDate → Prop)
    [DecidablePred window] : Money :=
  ((orders.filter fun o => o.status = "delivered" ∧ window o.created_date).map
    fun o => o.total_amount).sum

/-- Worded from the spec: membership in the current calendar month. -/
def in_calendar_month (today d : CalDate) : Prop :=
  d.year = today.year ∧ d.month = today.month

instance (today d : CalDate) : Decidable (in_calendar_month today d) := by
  unfold in_calendar_month
  infer_instance

/-- Worded from the spec, for comparison with the code's tax computation:
round to the currency's minor unit (2 decimal places) using round-half-up. -/
def round_half_up_2 (q : Money) : Money :=
  ((Int.floor (q * 100 + 1 / 2) : Int) : Money) / 100

/- Concrete fixtures used by the counterexamples and witnesses.  The prices
and charges realise the spec's worked scenario (items 50.00 x 2 and 30.00 x 1,
pickup 20.00, delivery 30.00), plus a one-paisa item for exercising the tax
precision behaviour. -/

/-- Catalog fixture. -/
def exCatalog : List LaundryItemRow :=
  [ { id := "item-shirt", price_per_piece := 50 },
    { id := "item-pant", price_per_piece := 30 },
    { id := "item-penny", price_per_piece := 1 / 100 } ]

/-- Vendor fixture. -/
def exVendors : List LaundryVendorRow :=
  [ { id := "vendor-1", pickup_charge := 20, delivery_charge := 30 },
    { id := "vendor-free", pickup_charge := 0, delivery_charge := 0 } ]

/-- An ordinary customer. -/
def exUser : UserCtx := { id := "user-1", role := "user" }

/-- A different customer, not owning `exUser`'s orders. -/
def exOtherUser : UserCtx := { id := "user-2", role := "user" }

/-- A master-role actor. -/
def exMaster : UserCtx := { id := "master-1", role := "master" }

/-- A vendor-role actor unrelated to `vendor-1`. -/
def exVendorActor : UserCtx := { id := "vendor-user-2", role := "vendor" }

/-- The spec's worked order request: shirt x2 plus pant x1 from vendor-1. -/
def exOrderReq : LaundryOrderCreate :=
  { laundry_vendor_id := "vendor-1"
    pickup_address := "A-101 Rose Block"
    pickup_date := "2024-01-02"
    pickup_time_slot := "09:00-12:00"
    pickup_instructions := none
    delivery_address := none
    delivery_instructions := none
    items :=
      [ { laundry_item_id := "item-shirt", quantity := 2, special_instructions := none },
        { laundry_item_id := "item-pant", quantity := 1, special_instructions := none } ] }

/-- A one-paisa order from the charge-free vendor (tax precision probe). -/
def exPennyReq : LaundryOrderCreate :=
  { exOrderReq with
    laundry_vendor_id := "vendor-free"
    items := [ { laundry_item_id := "item-penny", quantity := 1, special_instructions := none } ] }

/-- An order request with an empty items list. -/
def exEmptyReq : LaundryOrderCreate := { exOrderReq with items := [] }

/-- The stored item row for the shirts line of the worked scenario. -/
def exShirtRow : LaundryOrderItemRow :=
  { laundry_item_id := "item-shirt"
    quantity := 2
    unit_price := 50
    total_price := 100
    special_instructions := none }

/-- The stored item row for the pants line of the worked scenario. -/
def exPantRow : LaundryOrderItemRow :=
  { laundry_item_id := "item-pant"
    quantity := 1
    unit_price := 30
    total_price := 30
    special_instructions := none }

/-- The order produced by the worked scenario: subtotal 130.00, pickup 20.00,
delivery 30.00, tax 32.40 and total 212.40, exactly as in the spec's worked
example. -/
def exPendingOrder : LaundryOrder :=
  { user_id := "user-1"
    laundry_vendor_id := "vendor-1"
    order_number := "LND-20240102-001"
    pickup_address := "A-101 Rose Block"
    pickup_date := "2024-01-02"
    pickup_time_slot := "09:00-12:00"
    pickup_instructions := none
    delivery_address := "A-101 Rose Block"
    estimated_delivery_date := none
    estimated_delivery_time := none
    delivery_instructions := none
    status := "pending"
    subtotal := 130
    pickup_charge := 20
    delivery_charge := 30
    tax_amount := 162 / 5
    total_amount := 1062 / 5
    payment_status := "pending"
    payment_method := none
    payment_reference := none
    confirmed_at := none
    picked_up_at := none
    ready_at := none
    delivered_at := none
    cancelled_at := none
    items := [exShirtRow, exPantRow] }

/-- The worked order after it is marked delivered at time 100. -/
def exDeliveredOrder : LaundryOrder :=
  { exPendingOrder with status := "delivered", delivered_at := some 100 }

/-- A paid payment fixture for the refund handler. -/
def exPaidPayment : PaymentRow :=
  { order_id := "order-1"
    user_id := "user-1"
    amount := 100
    payment_method := "mock_payment"
    status := "paid"
    transaction_id := "TX_AAAA1111" }

/-- A still-pending payment fixture. -/
def exPendingPayment : PaymentRow := { exPaidPayment with status := "pending" }

/-- A generic order row related to `exPaidPayment`. -/
def exOrderRow : OrderRow :=
  { id := "order-1"
    user_id := "user-1"
    status := "confirmed"
    total_amount := 100
    cancelled_at := none }

/-- A generic order row already delivered. -/
def exDeliveredOrderRow : OrderRow := { exOrderRow with id := "order-2", status := "delivered" }

/-- The order produced by the one-paisa request: the stored tax 0.0018 keeps
all four decimal places. -/
def exPennyOrder : LaundryOrder :=
  { exPendingOrder with
    laundry_vendor_id := "vendor-free"
    order_number := "LND-20240102-002"
    subtotal := 1 / 100
    pickup_charge := 0
    delivery_charge := 0
    tax_amount := 9 / 5000
    total_amount := 59 / 5000
    items := [{ laundry_item_id := "item-penny", quantity := 1, unit_price := 1 / 100,
                total_price := 1 / 100, special_instructions := none }] }

/-- The order produced by the empty-items request: no validation rejects it. -/
def exEmptyOrder : LaundryOrder :=
  { exPendingOrder with
    order_number := "LND-20240102-003"
    subtotal := 0
    tax_amount := 9
    total_amount := 59
    items := [] }

/-- A status-only update request targeting "pending". -/
def exUpdToPending : LaundryOrderUpdate := { status := some "pending" }

/-- A status-only update request targeting "confirmed". -/
def exUpdToConfirmed : LaundryOrderUpdate := { status := some "confirmed" }

/-- A status-only update request targeting "delivered". -/
def exUpdToDelivered : LaundryOrderUpdate := { status := some "delivered" }

/-- A status-only update request targeting "cancelled". -/
def exUpdToCancelled : LaundryOrderUpdate := { status := some "cancelled" }

/-- Dashboard order fixtures: two delivered orders (one today, one earlier in
the month), a delivered order from the previous month and a pending one. -/
def exDashOrders : List DashOrder :=
  [ { status := "delivered", total_amount := 2124 / 10, created_date := ⟨2024, 3, 15⟩ },
    { status := "delivered", total_amount := 59, created_date := ⟨2024, 3, 2⟩ },
    { status := "delivered", total_amount := 40, created_date := ⟨2024, 2, 27⟩ },
    { status := "pending", total_amount := 75, created_date := ⟨2024, 3, 15⟩ } ]

/- Helper lemmas. -/

/-- Every item row built by the pricing loop satisfies
`total_price = unit_price * quantity`. -/
theorem price_order_items_totals {li : List LaundryItemRow} :
    ∀ {reqs : List LaundryOrderItemCreate} {s : Money} {rows : List LaundryOrderItemRow},
      price_order_items li reqs = .ok (s, rows) →
      ∀ r ∈ rows, r.total_price = r.unit_price * (r.quantity : Money)
  | [], s, rows, h => by
    unfold price_order_items at h
    obtain ⟨rfl, rfl⟩ : (0 : Money) = s ∧ ([] : List LaundryOrderItemRow) = rows := by
      simpa using h
    intro r hr
    cases hr
  | item :: rest, s, rows, h => by
    unfold price_order_items at h
    split at h
    · exact Except.noConfusion h
    · split at h
      · exact Except.noConfusion h
      · rename_i item_detail hfind subtotal_rest rows_rest hrest
        obtain ⟨h1, h2⟩ := Prod.mk.injEq _ _ _ _ ▸ Except.ok.inj h
        subst h2
        intro r hr
        rcases List.mem_cons.mp hr with hhead | htail
        · subst hhead
          rfl
        · exact price_order_items_totals hrest r htail

/-- Inversion for a successful `create_laundry_order`: the monetary identities
and the freshly-created state of the stored order. -/
theorem create_laundry_order_ok_inv {li : List LaundryItemRow} {lv : List LaundryVendorRow}
    {u : UserCtx} {req : LaundryOrderCreate} {n : String} {o : LaundryOrder}
    (h : create_laundry_order li lv u req n = .ok o) :
    o.tax_amount = (o.subtotal + o.pickup_charge + o.delivery_charge) * (18 / 100) ∧
    o.total_amount = o.subtotal + o.pickup_charge + o.delivery_charge + o.tax_amount ∧
    o.status = "pending" ∧ o.delivered_at = none ∧ o.cancelled_at = none ∧
    price_order_items li req.items = .ok (o.subtotal, o.items) := by
  unfold create_laundry_order at h
  split at h
  next => exact Except.noConfusion h
  next hrole =>
    split at h
    next e heq => exact Except.noConfusion h
    next subtotal items_data hprice =>
      split at h
      next hnone => exact Except.noConfusion h
      next vendor hfind =>
        have ho := Except.ok.inj h
        subst ho
        exact ⟨rfl, rfl, rfl, rfl, rfl, hprice⟩

/-- Stamping a status timestamp never changes the `status` field itself. -/
theorem stamp_status_timestamp_status (o : LaundryOrder) (st : Option String) (now : Nat) :
    (stamp_status_timestamp o st now).status = o.status := by
  cases st with
  | none => rfl
  | some s =>
    simp only [stamp_status_timestamp]
    split_ifs <;> rfl

/-- Stamping at most one timestamp: starting from an order with both terminal
timestamps unset, a single stamp leaves at least one of them unset. -/
theorem stamp_status_timestamp_terminal (o : LaundryOrder) (st : Option String) (now : Nat)
    (hd : o.delivered_at = none) (hc : o.cancelled_at = none) :
    (stamp_status_timestamp o st now).delivered_at = none ∨
    (stamp_status_timestamp o st now).cancelled_at = none := by
  cases st with
  | none => exact Or.inl hd
  | some s =>
    simp only [stamp_status_timestamp]
    split_ifs <;> simp [hd, hc]

/-- The permission gate of `update_laundry_order` is the only check: when it
passes, the update is applied and the timestamp stamped. -/
theorem update_laundry_order_eq (o : LaundryOrder) (u : UserCtx)
    (upd : LaundryOrderUpdate) (now : Nat)
    (hperm : ¬(u.role = "user" ∧ o.user_id ≠ u.id)) :
    update_laundry_order o u upd now =
      .ok (stamp_status_timestamp (apply_update o upd) upd.status now) := by
  unfold update_laundry_order
  rw [if_neg hperm]

/-- A user-role actor who does not own the order is denied. -/
theorem update_laundry_order_denied (o : LaundryOrder) (u : UserCtx)
    (upd : LaundryOrderUpdate) (now : Nat)
    (h1 : u.role = "user") (h2 : o.user_id ≠ u.id) :
    update_laundry_order o u upd now = .error (.forbidden "Access denied") := by
  unfold update_laundry_order
  rw [if_pos ⟨h1, h2⟩]

/-- Inversion for a successful `update_laundry_order`. -/
theorem update_laundry_order_ok_inv {o : LaundryOrder} {u : UserCtx}
    {upd : LaundryOrderUpdate} {now : Nat} {o2 : LaundryOrder}
    (h : update_laundry_order o u upd now = .ok o2) :
    o2 = stamp_status_timestamp (apply_update o upd) upd.status now := by
  unfold update_laundry_order at h
  split at h
  · exact Except.noConfusion h
  · exact (Except.ok.inj h).symm

/-- The concrete worked scenario evaluates as expected. -/
theorem exCreate_eq :
    create_laundry_order exCatalog exVendors exUser exOrderReq "LND-20240102-001" =
      .ok exPendingOrder := by
  simp [create_laundry_order, price_order_items, exCatalog, exVendors, exUser, exOrderReq,
    exPendingOrder, exShirtRow, exPantRow, List.find?]
  norm_num

/-- Marking the worked order delivered at time 100 evaluates as expected. -/
theorem exDeliver_eq :
    update_laundry_order exPendingOrder exMaster exUpdToDelivered 100 =
      .ok exDeliveredOrder := by
  simp [update_laundry_order, apply_update, stamp_status_timestamp,
    exPendingOrder, exDeliveredOrder, exMaster, exUpdToDelivered]

/-- Under the snapshot assumptions (no future-dated rows; calendar days start
at 1), the code's month filter `month_start today <= d` coincides with
membership in the current calendar month. -/
theorem month_window_iff (today d : CalDate) (hle : CalDate.le d today)
    (hday : 1 ≤ d.day) :
    CalDate.le (month_start today) d ↔ in_calendar_month today d := by
  unfold CalDate.le month_start in_calendar_month at *
  dsimp only at *
  omega

/- Claim theorems. -/

/-- C1 (counterexample): the claim that the stored `tax_amount` is rounded
half-up to two decimal places fails: a 0.01 order with zero charges stores
`tax_amount = 0.0018`, whereas the claimed rounded value is `0.00`. -/
theorem c1_tax_rounding_counterexample :
    create_laundry_order exCatalog exVendors exUser exPennyReq "LND-20240102-002" =
      .ok exPennyOrder ∧
    exPennyOrder.tax_amount ≠
      round_half_up_2 ((exPennyOrder.subtotal + exPennyOrder.pickup_charge +
        exPennyOrder.delivery_charge) * (18 / 100)) := by
  constructor
  · simp [create_laundry_order, price_order_items, exCatalog, exVendors, exUser, exPennyReq,
      exOrderReq, exPennyOrder, exPendingOrder, List.find?]
    norm_num
  · norm_num [exPennyOrder, exPendingOrder, round_half_up_2]

/-- C1 (amended): for every laundry order created by `create_laundry_order`,
the stored `tax_amount` equals `(subtotal + pickup_charge + delivery_charge) *
0.18` exactly, with no rounding to the currency's minor unit. -/
theorem create_laundry_order_tax_exact {li : List LaundryItemRow}
    {lv : List LaundryVendorRow} {u : UserCtx} {req : LaundryOrderCreate}
    {n : String} {o : LaundryOrder}
    (h : create_laundry_order li lv u req n = .ok o) :
    o.tax_amount = (o.subtotal + o.pickup_charge + o.delivery_charge) * (18 / 100) :=
  (create_laundry_order_ok_inv h).1

/-- C1 witness: the worked scenario instantiates the amended tax theorem. -/
theorem create_laundry_order_tax_exact_witness :
    create_laundry_order exCatalog exVendors exUser exOrderReq "LND-20240102-001" =
      .ok exPendingOrder ∧
    exPendingOrder.tax_amount =
      (exPendingOrder.subtotal + exPendingOrder.pickup_charge +
        exPendingOrder.delivery_charge) * (18 / 100) :=
  ⟨exCreate_eq, create_laundry_order_tax_exact exCreate_eq⟩

/-- C2: for every laundry order created by `create_laundry_order`, the stored
`total_amount` equals `subtotal + pickup_charge + delivery_charge +
tax_amount` exactly, as an equality of exact decimal values. -/
theorem create_laundry_order_total_decomposition {li : List LaundryItemRow}
    {lv : List LaundryVendorRow} {u : UserCtx} {req : LaundryOrderCreate}
    {n : String} {o : LaundryOrder}
    (h : create_laundry_order li lv u req n = .ok o) :
    o.total_amount = o.subtotal + o.pickup_charge + o.delivery_charge + o.tax_amount :=
  (create_laundry_order_ok_inv h).2.1

/-- C2 witness: the worked scenario instantiates the total decomposition. -/
theorem create_laundry_order_total_decomposition_witness :
    create_laundry_order exCatalog exVendors exUser exOrderReq "LND-20240102-001" =
      .ok exPendingOrder ∧
    exPendingOrder.total_amount =
      exPendingOrder.subtotal + exPendingOrder.pickup_charge +
        exPendingOrder.delivery_charge + exPendingOrder.tax_amount :=
  ⟨exCreate_eq, create_laundry_order_total_decomposition exCreate_eq⟩

/-- C3 (counterexample): a status update from the terminal state "delivered"
to "pending" is accepted by `update_laundry_order` (there is no
InvalidTransition failure), contradicting the claim. -/
theorem c3_terminal_transition_accepted_counterexample :
    exDeliveredOrder.status = "delivered" ∧
    update_laundry_order exDeliveredOrder exMaster exUpdToPending 200 =
      .ok { exDeliveredOrder with status := "pending" } ∧
    ({ exDeliveredOrder with status := "pending" } : LaundryOrder).status = "pending" := by
  refine ⟨rfl, ?_, rfl⟩
  simp [update_laundry_order, apply_update, stamp_status_timestamp, exDeliveredOrder,
    exPendingOrder, exMaster, exUpdToPending]

/-- C3 (amended): `update_laundry_order` performs no transition-legality
validation: a status update on a delivered or cancelled order succeeds
whenever the ownership gate passes, writing the requested status and stamping
its timestamp. -/
theorem update_laundry_order_no_transition_validation
    (o : LaundryOrder) (u : UserCtx) (upd : LaundryOrderUpdate) (now : Nat) (s : String)
    (hterm : o.status = "delivered" ∨ o.status = "cancelled")
    (hs : upd.status = some s)
    (hperm : ¬(u.role = "user" ∧ o.user_id ≠ u.id)) :
    update_laundry_order o u upd now =
      .ok (stamp_status_timestamp (apply_update o upd) upd.status now) ∧
    (stamp_status_timestamp (apply_update o upd) upd.status now).status = s := by
  refine ⟨update_laundry_order_eq o u upd now hperm, ?_⟩
  rw [stamp_status_timestamp_status]
  simp [apply_update, hs]

/-- C3 witness: the delivered worked order accepts a move back to "pending". -/
theorem update_laundry_order_no_transition_validation_witness :
    (exDeliveredOrder.status = "delivered" ∨ exDeliveredOrder.status = "cancelled") ∧
    exUpdToPending.status = some "pending" ∧
    ¬(exMaster.role = "user" ∧ exDeliveredOrder.user_id ≠ exMaster.id) ∧
    (update_laundry_order exDeliveredOrder exMaster exUpdToPending 200 =
      .ok (stamp_status_timestamp (apply_update exDeliveredOrder exUpdToPending)
            exUpdToPending.status 200) ∧
     (stamp_status_timestamp (apply_update exDeliveredOrder exUpdToPending)
        exUpdToPending.status 200).status = "pending") :=
  ⟨Or.inl rfl, rfl, by decide,
   update_laundry_order_no_transition_validation exDeliveredOrder exMaster exUpdToPending 200
    "pending" (Or.inl rfl) rfl (by decide)⟩

/-- C4 (counterexample): a vendor-role actor who does not own the order can
advance it (pending to confirmed) — `update_laundry_order` raises no
PermissionDenied for non-"user" roles, contradicting the claim. -/
theorem c4_foreign_vendor_advance_counterexample :
    exVendorActor.role = "vendor" ∧
    exPendingOrder.user_id ≠ exVendorActor.id ∧
    update_laundry_order exPendingOrder exVendorActor exUpdToConfirmed 150 =
      .ok { exPendingOrder with status := "confirmed", confirmed_at := some 150 } ∧
    ({ exPendingOrder with status := "confirmed", confirmed_at := some 150 } :
        LaundryOrder).status = "confirmed" := by
  refine ⟨rfl, by decide, ?_, rfl⟩
  simp [update_laundry_order, apply_update, stamp_status_timestamp, exPendingOrder,
    exVendorActor, exUpdToConfirmed]

/-- C4 (amended): the only permission check in `update_laundry_order` is that
a "user"-role actor must own the order: such a request from a non-owner fails
with 403 and nothing is written, while an actor of any other role (vendor or
master, owner or not) always passes the gate and the update is applied. -/
theorem update_laundry_order_permission_rule
    (o : LaundryOrder) (u : UserCtx) (upd : LaundryOrderUpdate) (now : Nat) :
    (u.role = "user" → o.user_id ≠ u.id →
      update_laundry_order o u upd now = .error (.forbidden "Access denied")) ∧
    (u.role ≠ "user" →
      update_laundry_order o u upd now =
        .ok (stamp_status_timestamp (apply_update o upd) upd.status now)) :=
  ⟨fun h1 h2 => update_laundry_order_denied o u upd now h1 h2,
   fun hr => update_laundry_order_eq o u upd now fun hc => hr hc.1⟩

/-- C4 witness: a foreign user's cancel is denied; a foreign vendor's advance
is accepted. -/
theorem update_laundry_order_permission_rule_witness :
    exOtherUser.role = "user" ∧ exPendingOrder.user_id ≠ exOtherUser.id ∧
    update_laundry_order exPendingOrder exOtherUser exUpdToCancelled 300 =
      .error (.forbidden "Access denied") ∧
    exVendorActor.role ≠ "user" ∧
    update_laundry_order exPendingOrder exVendorActor exUpdToConfirmed 300 =
      .ok (stamp_status_timestamp (apply_update exPendingOrder exUpdToConfirmed)
            exUpdToConfirmed.status 300) :=
  ⟨rfl, by decide,
   (update_laundry_order_permission_rule exPendingOrder exOtherUser exUpdToCancelled 300).1
     rfl (by decide),
   by decide,
   (update_laundry_order_permission_rule exPendingOrder exVendorActor exUpdToConfirmed 300).2
     (by decide)⟩

/-- C5 (counterexample): refunding a paid payment sets the order's status to
"cancelled" but does not stamp `cancelled_at` — the update dict contains only
the status column — contradicting the claim's "stamping cancelled_at". -/
theorem c5_refund_without_cancelled_at_counterexample :
    exPaidPayment.status = "paid" ∧ exOrderRow.cancelled_at = none ∧
    refund_payment exPaidPayment exOrderRow =
      .ok ({ exPaidPayment with status := "refunded" },
           { exOrderRow with status := "cancelled" }) ∧
    ({ exOrderRow with status := "cancelled" } : OrderRow).cancelled_at = none := by
  refine ⟨rfl, rfl, ?_, rfl⟩
  simp [refund_payment, exPaidPayment, exOrderRow]

/-- C5 (amended): `refund_payment` fails with PaymentNotRefundable (HTTP 400)
for every payment whose status is not "paid", leaving payment and order
untouched; for a paid payment it marks the payment "refunded" and the related
order "cancelled", without stamping `cancelled_at`. -/
theorem refund_payment_behaviour (payment : PaymentRow) (order : OrderRow) :
    (payment.status ≠ "paid" →
      refund_payment payment order =
        .error (.badRequest "Can only refund paid payments")) ∧
    (payment.status = "paid" →
      refund_payment payment order =
        .ok ({ payment with status := "refunded" }, { order with status := "cancelled" }) ∧
      ({ order with status := "cancelled" } : OrderRow).cancelled_at = order.cancelled_at) := by
  constructor
  · intro hne
    unfold refund_payment
    rw [if_pos hne]
  · intro heq
    refine ⟨?_, rfl⟩
    unfold refund_payment
    rw [if_neg (not_not_intro heq)]

/-- C5 witness: a pending payment is rejected; a paid one is refunded with the
order cancelled and `cancelled_at` untouched. -/
theorem refund_payment_behaviour_witness :
    exPendingPayment.status ≠ "paid" ∧
    refund_payment exPendingPayment exOrderRow =
      .error (.badRequest "Can only refund paid payments") ∧
    exPaidPayment.status = "paid" ∧
    (refund_payment exPaidPayment exOrderRow =
      .ok ({ exPaidPayment with status := "refunded" },
           { exOrderRow with status := "cancelled" }) ∧
     ({ exOrderRow with status := "cancelled" } : OrderRow).cancelled_at =
       exOrderRow.cancelled_at) :=
  ⟨by decide,
   (refund_payment_behaviour exPendingPayment exOrderRow).1 (by decide),
   rfl,
   (refund_payment_behaviour exPaidPayment exOrderRow).2 rfl⟩

/-- C6 (counterexample): recording a payment for an order whose status is
"delivered" still rewrites the order status to "confirmed" — the handler's
order update is unconditional, contradicting "if and only if pending". -/
theorem c6_unconditional_confirm_counterexample :
    exDeliveredOrderRow.status = "delivered" ∧
    create_payment (some exDeliveredOrderRow) exUser 100 none "TX_BBBB2222" =
      .ok ({ order_id := "order-2", user_id := "user-1", amount := 100,
             payment_method := "mock_payment", status := "pending",
             transaction_id := "TX_BBBB2222" },
           { order_id := "order-2", user_id := "user-1", amount := 100,
             payment_method := "mock_payment", status := "paid",
             transaction_id := "TX_BBBB2222" },
           { exDeliveredOrderRow with status := "confirmed" }) ∧
    ({ exDeliveredOrderRow with status := "confirmed" } : OrderRow).status = "confirmed" := by
  refine ⟨rfl, ?_, rfl⟩
  simp [create_payment, exDeliveredOrderRow, exOrderRow, exUser]

/-- C6 (amended): for an existing order paid by its owner, `create_payment`
creates the payment in "pending" status, immediately marks it "paid", and sets
the order's status to "confirmed" unconditionally, whatever the previous
status was. -/
theorem create_payment_flow (order : OrderRow) (u : UserCtx) (amount : Money)
    (payment_method : Option String) (transaction_id : String)
    (howner : order.user_id = u.id) :
    create_payment (some order) u amount payment_method transaction_id =
      .ok ({ order_id := order.id, user_id := u.id, amount := amount,
             payment_method := payment_method.getD "mock_payment",
             status := "pending", transaction_id := transaction_id },
           { order_id := order.id, user_id := u.id, amount := amount,
             payment_method := payment_method.getD "mock_payment",
             status := "paid", transaction_id := transaction_id },
           { order with status := "confirmed" }) := by
  simp only [create_payment]
  rw [if_neg (not_not_intro howner)]

/-- C6 witness: the owner pays a confirmed-state order; the pending-then-paid
payment pair and the unconditional confirmed order are produced. -/
theorem create_payment_flow_witness :
    exOrderRow.user_id = exUser.id ∧
    create_payment (some exOrderRow) exUser 100 none "TX_AAAA1111" =
      .ok ({ order_id := "order-1", user_id := "user-1", amount := 100,
             payment_method := "mock_payment", status := "pending",
             transaction_id := "TX_AAAA1111" },
           { order_id := "order-1", user_id := "user-1", amount := 100,
             payment_method := "mock_payment", status := "paid",
             transaction_id := "TX_AAAA1111" },
           { exOrderRow with status := "confirmed" }) :=
  ⟨rfl, create_payment_flow exOrderRow exUser 100 none "TX_AAAA1111" rfl⟩

/-- C7 (counterexample): a reachable sequence — create, mark delivered at 100,
then mark cancelled at 200 — produces an order with BOTH `delivered_at` and
`cancelled_at` non-null, contradicting the claimed invariant. -/
theorem c7_both_terminal_timestamps_counterexample :
    create_laundry_order exCatalog exVendors exUser exOrderReq "LND-20240102-001" =
      .ok exPendingOrder ∧
    update_laundry_order exPendingOrder exMaster exUpdToDelivered 100 =
      .ok exDeliveredOrder ∧
    update_laundry_order exDeliveredOrder exMaster exUpdToCancelled 200 =
      .ok { exDeliveredOrder with status := "cancelled", cancelled_at := some 200 } ∧
    ({ exDeliveredOrder with status := "cancelled", cancelled_at := some 200 } :
        LaundryOrder).delivered_at = some 100 ∧
    ({ exDeliveredOrder with status := "cancelled", cancelled_at := some 200 } :
        LaundryOrder).cancelled_at = some 200 := by
  refine ⟨exCreate_eq, exDeliver_eq, ?_, rfl, rfl⟩
  simp [update_laundry_order, apply_update, stamp_status_timestamp, exDeliveredOrder,
    exPendingOrder, exMaster, exUpdToCancelled]

/-- C7 (amended): the claimed invariant holds only for short histories: a
freshly created order has both terminal timestamps null, and after a single
accepted update at most one of them is non-null; longer update sequences can
set both, since no transition validation exists. -/
theorem terminal_timestamps_after_single_update
    {li : List LaundryItemRow} {lv : List LaundryVendorRow} {u : UserCtx}
    {req : LaundryOrderCreate} {n : String} {o : LaundryOrder}
    (h : create_laundry_order li lv u req n = .ok o)
    {u2 : UserCtx} {upd : LaundryOrderUpdate} {now : Nat} {o2 : LaundryOrder}
    (h2 : update_laundry_order o u2 upd now = .ok o2) :
    o2.delivered_at = none ∨ o2.cancelled_at = none := by
  obtain ⟨-, -, -, hd, hc, -⟩ := create_laundry_order_ok_inv h
  rw [update_laundry_order_ok_inv h2]
  exact stamp_status_timestamp_terminal _ _ _ hd hc

/-- C7 witness: the created worked order, once marked delivered, still has a
null `cancelled_at`. -/
theorem terminal_timestamps_after_single_update_witness :
    create_laundry_order exCatalog exVendors exUser exOrderReq "LND-20240102-001" =
      .ok exPendingOrder ∧
    update_laundry_order exPendingOrder exMaster exUpdToDelivered 100 =
      .ok exDeliveredOrder ∧
    (exDeliveredOrder.delivered_at = none ∨ exDeliveredOrder.cancelled_at = none) :=
  ⟨exCreate_eq, exDeliver_eq,
   terminal_timestamps_after_single_update exCreate_eq exDeliver_eq⟩

/-- C8 (counterexample): `create_laundry_order` accepts an order request with
an empty items list — neither the pydantic model nor the handler enforces
non-emptiness — contradicting the claim's first half. -/
theorem c8_empty_items_accepted_counterexample :
    exEmptyReq.items = [] ∧
    create_laundry_order exCatalog exVendors exUser exEmptyReq "LND-20240102-003" =
      .ok exEmptyOrder ∧
    exEmptyOrder.items = [] := by
  refine ⟨rfl, ?_, rfl⟩
  simp [create_laundry_order, price_order_items, exCatalog, exVendors, exUser, exEmptyReq,
    exOrderReq, exEmptyOrder, exPendingOrder, List.find?]
  norm_num

/-- C8 (amended): the items list of an accepted order may be empty (no
non-emptiness validation exists), but every stored item row does satisfy
`total_price = unit_price * quantity` exactly. -/
theorem create_laundry_order_item_totals
    {li : List LaundryItemRow} {lv : List LaundryVendorRow} {u : UserCtx}
    {req : LaundryOrderCreate} {n : String} {o : LaundryOrder}
    (h : create_laundry_order li lv u req n = .ok o) :
    ∀ r ∈ o.items, r.total_price = r.unit_price * (r.quantity : Money) := by
  obtain ⟨-, -, -, -, -, hp⟩ := create_laundry_order_ok_inv h
  exact price_order_items_totals hp

/-- C8 witness: the shirts line of the worked order satisfies the per-item
identity (100.00 = 50.00 x 2). -/
theorem create_laundry_order_item_totals_witness :
    create_laundry_order exCatalog exVendors exUser exOrderReq "LND-20240102-001" =
      .ok exPendingOrder ∧
    exShirtRow ∈ exPendingOrder.items ∧
    exShirtRow.total_price = exShirtRow.unit_price * (exShirtRow.quantity : Money) :=
  ⟨exCreate_eq, by simp [exPendingOrder],
   create_laundry_order_item_totals exCreate_eq exShirtRow (by simp [exPendingOrder])⟩

/-- C9: for every vendor order snapshot with no future-dated rows and
well-formed dates, the dashboard's `today_revenue` and `monthly_revenue` equal
the sum of `total_amount` over exactly the delivered orders whose creation
date falls in the respective window (each listed order counted once). -/
theorem vendor_dashboard_revenue_windows (orders : List DashOrder) (today : CalDate)
    (hle : ∀ o ∈ orders, CalDate.le o.created_date today)
    (hday : ∀ o ∈ orders, 1 ≤ o.created_date.day) :
    today_revenue orders today = revenue_in_window orders (fun d => d = today) ∧
    monthly_revenue orders today = revenue_in_window orders (in_calendar_month today) := by
  constructor
  · unfold today_revenue revenue_in_window
    exact congrArg List.sum (congrArg (List.map _)
      (List.filter_congr fun o ho => decide_eq_decide.mpr Iff.rfl))
  · unfold monthly_revenue revenue_in_window
    exact congrArg List.sum (congrArg (List.map _)
      (List.filter_congr fun o ho => decide_eq_decide.mpr
        (and_congr_right fun _ =>
          month_window_iff today o.created_date (hle o ho) (hday o ho))))

/-- C9 witness: on the four-order snapshot at 2024-03-15, both revenue figures
coincide with the spec's window sums. -/
theorem vendor_dashboard_revenue_windows_witness :
    (∀ o ∈ exDashOrders, CalDate.le o.created_date ⟨2024, 3, 15⟩) ∧
    (∀ o ∈ exDashOrders, 1 ≤ o.created_date.day) ∧
    (today_revenue exDashOrders ⟨2024, 3, 15⟩ =
       revenue_in_window exDashOrders (fun d => d = ⟨2024, 3, 15⟩) ∧
     monthly_revenue exDashOrders ⟨2024, 3, 15⟩ =
       revenue_in_window exDashOrders (in_calendar_month ⟨2024, 3, 15⟩)) :=
  ⟨by decide, by decide,
   vendor_dashboard_revenue_windows exDashOrders ⟨2024, 3, 15⟩ (by decide) (by decide)⟩

/-- C10: a request whose client host is not a localhost address or whose
X-Testing header is not the string "true" is rejected with 401 Unauthorized,
while every localhost request carrying X-Testing "true" receives the fixed
mock identity whose role is "master", with no credential checked. -/
theorem get_current_user_or_testing_characterisation
    (host : String) (x_testing : Option String) :
    get_current_user_or_testing host x_testing =
      (if (host = "127.0.0.1" ∨ host = "localhost" ∨ host = "::1") ∧ x_testing = some "true"
       then .ok testingUser
       else .error (.unauthorized "Not authenticated")) ∧
    testingUser.role = "master" :=
  ⟨rfl, rfl⟩

end CommunityExpress
